import Mathlib

/-!
Verification of the attendance-system backend (FastAPI + MongoDB).

This file shallowly embeds the parts of the code base that the checked
claims are about: the Mongo-backed entity repositories
(`app/models/User.py`, `app/models/Member.py`, `app/models/Lifegroup.py`,
`app/models/Tribe.py`), the authentication service
(`app/services/AuthService.py`), the pagination helper
(`app/libs/helper.py`), and the request handlers
(`app/http/controllers/AuthController.py`,
`app/http/controllers/MemberController.py`).

Modelling conventions:
* BSON ObjectIds are modelled as `Nat`; the string rendering of an id
  uses decimal digits, standing in for the 24-hex-char rendering, and
  `ObjectId.is_valid` accepts exactly those renderings.
* `datetime` values are modelled as `Nat` ticks.
* Mongo documents are association lists preserving Python dict insertion
  order; a query is likewise an association list whose values describe
  the query operators actually used by this code base.
* Python exceptions are modelled with `PyErr`: `fastapi.HTTPException`
  carries a status code and a detail string; attribute and pydantic
  validation errors are the non-HTTP exceptions that the controllers'
  `except HTTPException` blocks do not catch.
-/

set_option autoImplicit false

/-- A BSON value as stored in a Mongo document (only the shapes this code
base writes: ObjectIds, strings, datetimes, booleans, arrays, null). -/
inductive BVal where
  | oid (n : Nat)
  | str (s : String)
  | dt (t : Nat)
  | bool (b : Bool)
  | arr (xs : List BVal)
  | null
  deriving Repr

/-- Structural equality of BSON values (arrays compared elementwise). -/
def BVal.beq : BVal → BVal → Bool
  | .oid a, .oid b => a == b
  | .str a, .str b => a == b
  | .dt a, .dt b => a == b
  | .bool a, .bool b => a == b
  | .null, .null => true
  | .arr xs, .arr ys => go xs ys
  | _, _ => false
where
  go : List BVal → List BVal → Bool
  | [], [] => true
  | x :: xs, y :: ys => BVal.beq x y && go xs ys
  | _, _ => false

instance : BEq BVal := ⟨BVal.beq⟩

/-- A Mongo document / Python dict: key-value pairs in insertion order. -/
abbrev Doc := List (String × BVal)

/-- Python dict read: first (and per `dictSet` only) binding of a key. -/
def dictGet {α : Type} (d : List (String × α)) (k : String) : Option α :=
  match d with
  | [] => none
  | (k', v) :: rest => if k' = k then some v else dictGet rest k

/-- Python dict assignment `d[k] = v`: replaces the value in place when the
key exists, appends the pair otherwise. -/
def dictSet {α : Type} (d : List (String × α)) (k : String) (v : α) :
    List (String × α) :=
  match d with
  | [] => [(k, v)]
  | (k', v') :: rest =>
      if k' = k then (k, v) :: rest else (k', v') :: dictSet rest k v

/-- Python `d.update(other)`: assign every pair of `other` into `d`. -/
def dictMerge {α : Type} (d other : List (String × α)) :
    List (String × α) :=
  other.foldl (fun acc kv => dictSet acc kv.1 kv.2) d

/-- ObjectId rendered as a string (stands in for the hex rendering). -/
def oidToStr (n : Nat) : String := toString n

/-- Parse a run of decimal digit characters into a number. -/
def digitsToNat? : List Char → Nat → Option Nat
  | [], acc => some acc
  | c :: rest, acc =>
      if 48 ≤ c.toNat && c.toNat ≤ 57 then
        digitsToNat? rest (acc * 10 + (c.toNat - 48))
      else
        none

/-- Parse the decimal rendering of an id back to the id. -/
def strToNatOpt (s : String) : Option Nat :=
  match s.data with
  | [] => none
  | cs => digitsToNat? cs 0

/-- Embeds `bson.ObjectId.is_valid`: accepts exactly the id renderings. -/
def objectIdIsValid (s : String) : Bool := (strToNatOpt s).isSome

/-- Embeds `bson.ObjectId(s)` on a string accepted by `objectIdIsValid`. -/
def parseObjectId (s : String) : Nat := (strToNatOpt s).getD 0

/-- Python `str(...)` on the BSON values that reach the repositories'
list conversions (ObjectIds and strings in `members` arrays). -/
def pyStrOfBVal (v : BVal) : String :=
  match v with
  | .oid n => oidToStr n
  | .str s => s
  | .dt t => toString t
  | .bool b => toString b
  | .arr _ => ""
  | .null => "None"

/-- Is the first character list a prefix of the second. -/
def charsPrefixOf : List Char → List Char → Bool
  | [], _ => true
  | _ :: _, [] => false
  | a :: as, b :: bs => a == b && charsPrefixOf as bs

/-- Is the first character list a contiguous segment of the second. -/
def charsInfixOf (xs ys : List Char) : Bool :=
  match ys with
  | [] => xs.isEmpty
  | _ :: tail => charsPrefixOf xs ys || charsInfixOf xs tail

/-- Case-insensitive substring test, the semantics of the
`{"$regex": ".*term.*", "$options": "i"}` patterns this code builds. -/
def strContainsCI (s term : String) : Bool :=
  charsInfixOf (term.data.map Char.toLower) (s.data.map Char.toLower)

/-- A query value: the Mongo operator expressions this code base uses. -/
inductive QVal where
  /-- Embeds `{key: value}` exact match (also matches arrays containing it). -/
  | eqv (v : BVal)
  /-- Embeds `{"$or": [{"deleted_at": None}, {"deleted_at": {"$exists": False}}]}`,
  the soft-delete filter of `MemberModel` and `LifegroupModel`. -/
  | orDeletedAtNull
  /-- Embeds `{"$or": [{f1: regex}, ..., {fn: regex}]}`, one clause per field:
  matches when some listed field contains the term. -/
  | orSearch (fields : List String) (term : String)
  /-- Embeds `{"$or": [{f1: regex, ..., fn: regex}]}`, a single clause holding
  every field (the `UserModel.get_user_list` variant): matches when all
  listed fields contain the term. -/
  | orSearchConj (fields : List String) (term : String)
  /-- Embeds `{"$ne": True}`, the soft-delete filter of `TribeModel`. -/
  | neTrue
  /-- Embeds `{"$ne": None}`: field present with a non-null value. -/
  | neNull
  deriving Repr, BEq

/-- A Mongo query as built by the Python code: a dict from keys to query
values (both soft-delete `$or` filters and search `$or` filters live
under the `"$or"` key). -/
abbrev Query := List (String × QVal)

/-- Does a document field satisfy a search regex clause for a field. -/
def fieldMatchesSearch (d : Doc) (f term : String) : Bool :=
  match dictGet d f with
  | some (.str s) => strContainsCI s term
  | _ => false

/-- Mongo equality match: direct equality, null also matching an absent
field, and equality against any element of an array field. -/
def valEqMongo (docVal : BVal) (v : BVal) : Bool :=
  docVal == v ||
    (match docVal with
     | .arr xs => xs.contains v
     | _ => false)

/-- Whether a document satisfies one key/query-value condition. -/
def condMatches (d : Doc) (kq : String × QVal) : Bool :=
  match kq.2 with
  | .eqv v =>
      (match dictGet d kq.1 with
       | some dv => valEqMongo dv v
       | none => v == .null)
  | .orDeletedAtNull =>
      (match dictGet d "deleted_at" with
       | none => true
       | some .null => true
       | some _ => false)
  | .orSearch fields term => fields.any (fun f => fieldMatchesSearch d f term)
  | .orSearchConj fields term =>
      fields.all (fun f => fieldMatchesSearch d f term)
  | .neTrue =>
      (match dictGet d kq.1 with
       | some (.bool true) => false
       | _ => true)
  | .neNull =>
      (match dictGet d kq.1 with
       | none => false
       | some .null => false
       | some _ => true)

/-- Whether a document satisfies every condition of a query. -/
def docMatches (d : Doc) (q : Query) : Bool := q.all (condMatches d)

/-- A Mongo collection: documents in insertion order. -/
abbrev Collection := List Doc

/-- Embeds `collection.find(query)`: the matching documents in order. -/
def findDocs (c : Collection) (q : Query) : List Doc :=
  c.filter (fun d => docMatches d q)

/-- Embeds `collection.find_one(query)`: first matching document, if any. -/
def findOne (c : Collection) (q : Query) : Option Doc :=
  (findDocs c q).head?

/-- Embeds `collection.count_documents(query)`. -/
def countDocuments (c : Collection) (q : Query) : Nat :=
  (findDocs c q).length

/-- Embeds `projection={"password": False}`: drop the excluded field. -/
def projExcludePassword (d : Doc) : Doc :=
  d.filter (fun kv => kv.1 != "password")

/-- Embeds `collection.update_one(query, {"$set": setDoc})`: set the fields on
the first matching document; returns `matched_count` and the collection. -/
def updateOneSet (c : Collection) (q : Query) (setDoc : Doc) :
    Nat × Collection :=
  match c with
  | [] => (0, [])
  | d :: rest =>
      if docMatches d q then
        (1, dictMerge d setDoc :: rest)
      else
        let (n, rest') := updateOneSet rest q setDoc
        (n, d :: rest')

/-- Embeds `collection.insert_one`: append the document (ids are assigned by the
callers in this embedding, mirroring the driver's id assignment). -/
def insertDoc (c : Collection) (d : Doc) : Collection := c ++ [d]

/-- A Python exception as observed by the controllers: either a caught
`fastapi.HTTPException`, or an uncaught error (`AttributeError` from a
missing attribute, pydantic `ValidationError`). -/
inductive PyErr where
  | http (status : Nat) (detail : String)
  | attributeError (msg : String)
  | validationError (msg : String)
  deriving Repr, BEq, DecidableEq

/-- Python truthiness of an optional string (`None` and `""` are falsy). -/
def strTruthy (s : Option String) : Bool :=
  match s with
  | none => false
  | some v => !v.data.isEmpty

/-- Python truthiness of an optional document (`None` and `{}` falsy). -/
def docTruthy (d : Option Doc) : Bool :=
  match d with
  | none => false
  | some v => !v.isEmpty

/-- Embeds `collection.delete_one(query)`: remove the first matching document;
returns `deleted_count` and the collection. -/
def deleteOne (c : Collection) (q : Query) : Nat × Collection :=
  match c with
  | [] => (0, [])
  | d :: rest =>
      if docMatches d q then (1, rest)
      else
        let (n, rest') := deleteOne rest q
        (n, d :: rest')

/-- An id as accepted by the repositories (`IDLike = Union[str, ObjectId]`). -/
inductive IDLike where
  | s (v : String)
  | oid (n : Nat)

/-- The shared string-id normalization the repositories inline: a string id
must pass `ObjectId.is_valid` (else `HTTPException(400)`) and is parsed. -/
def normalizeId (v : IDLike) : Except PyErr Nat :=
  match v with
  | .s s =>
      if objectIdIsValid s then .ok (parseObjectId s)
      else .error (.http 400 "Invalid ID format")
  | .oid n => .ok n

/-- Conversion of a single ObjectId value to its string rendering, other
values unchanged (`str(document[key])` under `isinstance(_, ObjectId)`). -/
def convValOidToStr (v : BVal) : BVal :=
  match v with
  | .oid n => .str (oidToStr n)
  | other => other

namespace UserModel

/-- Embeds `UserModel._convert_objectids_to_str`: renders `_id` as a string. -/
def convert (d : Doc) : Doc :=
  d.map (fun kv => (kv.1, if kv.1 = "_id" then convValOidToStr kv.2 else kv.2))

/-- Embeds `UserCreate` (pydantic): fields in declaration order. -/
structure UserCreateModel where
  email : String
  full_name : Option String
  password : String
  created_at : Nat
  updated_at : Nat

/-- Embeds `UserCreate.model_dump()`: every field, `None` becoming BSON null. -/
def UserCreateModel.dump (u : UserCreateModel) : Doc :=
  [("email", .str u.email),
   ("full_name", match u.full_name with | some s => .str s | none => .null),
   ("password", .str u.password),
   ("created_at", .dt u.created_at),
   ("updated_at", .dt u.updated_at)]

/-- Embeds `UserUpdate` (pydantic), with `none` for unset-or-None fields. -/
structure UserUpdateModel where
  email : Option String := none
  password : Option String := none
  full_name : Option String := none
  updated_at : Option Nat := none

/-- Embeds `UserUpdate.model_dump(exclude_unset=True, exclude_none=True)`. -/
def UserUpdateModel.dump (u : UserUpdateModel) : Doc :=
  (match u.email with | some s => [("email", BVal.str s)] | none => []) ++
  (match u.password with | some s => [("password", BVal.str s)] | none => []) ++
  (match u.full_name with | some s => [("full_name", BVal.str s)] | none => []) ++
  (match u.updated_at with | some t => [("updated_at", BVal.dt t)] | none => [])

/-- Embeds `UserModel.get_user_list`: optional search over email and full name
(one `$or` clause holding both regexes), password projected away. -/
def get_user_list (c : Collection) (skip limit : Nat)
    (search_term : Option String) : List Doc × Nat :=
  let query : Query := []
  let query :=
    if strTruthy search_term then
      dictSet query "$or"
        (QVal.orSearchConj ["email", "full_name"] (search_term.getD ""))
    else query
  let total_count := countDocuments c query
  let users :=
    (((findDocs c query).map projExcludePassword).drop skip).take limit
  (users.map convert, total_count)

/-- Embeds `UserModel.create`: insert the dump, read back with the password
projected away, convert. -/
def create (c : Collection) (u : UserCreateModel) (freshId : Nat) :
    Except PyErr (Doc × Collection) :=
  let item := u.dump
  let item := dictSet item "_id" (.oid freshId)
  let c2 := insertDoc c item
  match (findOne c2 [("_id", .eqv (.oid freshId))]).map projExcludePassword with
  | none => .error (.http 500 "Failed to retrieve created user")
  | some document => .ok (convert document, c2)

/-- Embeds `UserModel.get_by_id`: id validation, lookup with the password
projected away (no soft-delete filtering for users). -/
def get_by_id (c : Collection) (user_id : IDLike) :
    Except PyErr (Option Doc) :=
  match normalizeId user_id with
  | .error e => .error e
  | .ok obj =>
      let documentOpt :=
        (findOne c [("_id", .eqv (.oid obj))]).map projExcludePassword
      .ok (documentOpt.map convert)

/-- Embeds `UserModel.get_all`: every document, no projection applied. -/
def get_all (c : Collection) : List Doc :=
  (findDocs c []).map convert

/-- Embeds `UserModel.get_by_email`: exact-match lookup, no projection. -/
def get_by_email (c : Collection) (email : String) : Option Doc :=
  (findOne c [("email", .eqv (.str email))]).map convert

/-- Embeds `UserModel.update`: stamp `updated_at` after the dump, guard on the
empty dict, `update_one` on `{_id}` (match count unchecked), read back. -/
def update (c : Collection) (user_id : String) (update_data : UserUpdateModel)
    (now : Nat) : Except PyErr (Doc × Collection) :=
  if !objectIdIsValid user_id then
    .error (.http 400 "Invalid ID format")
  else
    let obj := parseObjectId user_id
    let update_dict := update_data.dump
    let update_dict := dictSet update_dict "updated_at" (.dt now)
    if update_dict.isEmpty then
      .error (.http 400 "No update data provided")
    else
      let (_, c2) := updateOneSet c [("_id", .eqv (.oid obj))] update_dict
      match get_by_id c2 (.oid obj) with
      | .error e => .error e
      | .ok none => .error (.http 404 "User not found after update")
      | .ok (some document) => .ok (document, c2)

end UserModel

namespace TribeModel

/-- Embeds `TribeModel._convert_objectids_to_str`: renders `_id` as a string. -/
def convert (d : Doc) : Doc :=
  d.map (fun kv => (kv.1, if kv.1 = "_id" then convValOidToStr kv.2 else kv.2))

/-- Embeds `TribeModel._base_query`: `{"deleted": {"$ne": True}}` unless deleted
rows are included. -/
def base_query (include_deleted : Bool) : Query :=
  if include_deleted then [] else [("deleted", QVal.neTrue)]

/-- Embeds `TribeModel.get_tribe_list`: the search filter is assigned under the
`"$or"` key, leaving the `"deleted"` filter in place. -/
def get_tribe_list (c : Collection) (skip limit : Nat)
    (search_term : Option String) (include_deleted : Bool) :
    List Doc × Nat :=
  let query := base_query include_deleted
  let query :=
    if strTruthy search_term then
      dictSet query "$or"
        (QVal.orSearch ["name", "description"] (search_term.getD ""))
    else query
  let total_count := countDocuments c query
  let tribes := ((findDocs c query).drop skip).take limit
  (tribes.map convert, total_count)

end TribeModel

namespace MemberModel

/-- Embeds `MemberModel._convert_objectids_to_str` on a single document: renders
`_id`, `tribe_id` and `life_group_id` values (ObjectIds inside lists are
rendered, other list elements kept). -/
def convert (d : Doc) : Doc :=
  d.map (fun kv =>
    (kv.1,
     if kv.1 = "_id" ∨ kv.1 = "tribe_id" ∨ kv.1 = "life_group_id" then
       match kv.2 with
       | .oid n => .str (oidToStr n)
       | .arr xs => .arr (xs.map convValOidToStr)
       | other => other
     else kv.2))

/-- Embeds `MemberModel._base_query`: the soft-delete `$or` filter unless deleted
rows are included. -/
def base_query (include_deleted : Bool) : Query :=
  if include_deleted then [] else [("$or", QVal.orDeletedAtNull)]

/-- Embeds `MemberModel.get_member_list`: a truthy search term is assigned under
the `"$or"` key of the query dict. -/
def get_member_list (c : Collection) (skip limit : Nat)
    (search_term : Option String) (include_deleted : Bool) :
    List Doc × Nat :=
  let query := base_query include_deleted
  let query :=
    if strTruthy search_term then
      dictSet query "$or"
        (QVal.orSearch ["first_name", "middle_name", "last_name", "address"]
          (search_term.getD ""))
    else query
  let total_count := countDocuments c query
  let members :=
    (((findDocs c query).map projExcludePassword).drop skip).take limit
  (members.map convert, total_count)

/-- Embeds `MemberCreate` (pydantic): fields in declaration order; note the field
is `life_group_id`, not the request key `lifegroup_id`. -/
structure MemberCreateModel where
  first_name : String
  middle_name : Option String
  last_name : String
  address : String
  birthday : Nat
  tribe_id : Nat
  life_group_id : Option Nat
  created_at : Nat
  updated_at : Nat

/-- Embeds `MemberCreate.model_dump()`: every field, `None` becoming null. -/
def MemberCreateModel.dump (m : MemberCreateModel) : Doc :=
  [("first_name", .str m.first_name),
   ("middle_name", match m.middle_name with | some s => .str s | none => .null),
   ("last_name", .str m.last_name),
   ("address", .str m.address),
   ("birthday", .dt m.birthday),
   ("tribe_id", .oid m.tribe_id),
   ("life_group_id",
    match m.life_group_id with | some n => .oid n | none => .null),
   ("created_at", .dt m.created_at),
   ("updated_at", .dt m.updated_at)]

/-- Embeds `MemberModel.create`: insert the dump (timestamps are always present
in the dump, so the `setdefault` calls are no-ops), read back with the
password projection, convert. -/
def create (c : Collection) (m : MemberCreateModel) (freshId : Nat) :
    Except PyErr (Doc × Collection) :=
  let item := m.dump
  let item := dictSet item "_id" (.oid freshId)
  let c2 := insertDoc c item
  match (findOne c2 [("_id", .eqv (.oid freshId))]).map projExcludePassword with
  | none => .error (.http 500 "Failed to retrieve created member")
  | some document => .ok (convert document, c2)

/-- Embeds `MemberModel.get_by_id`: id validation, then lookup merged with the
soft-delete filter unless deleted rows are included. -/
def get_by_id (c : Collection) (member_id : IDLike) (include_deleted : Bool) :
    Except PyErr (Option Doc) :=
  match normalizeId member_id with
  | .error e => .error e
  | .ok obj =>
      let query : Query := [("_id", .eqv (.oid obj))]
      let query :=
        if !include_deleted then dictMerge query (base_query include_deleted)
        else query
      .ok ((findOne c query).map convert)

/-- Embeds `MemberUpdate` (pydantic), with `none` for unset-or-None fields. -/
structure MemberUpdateModel where
  tribe_id : Option Nat := none
  first_name : Option String := none
  middle_name : Option String := none
  last_name : Option String := none
  address : Option String := none
  birthday : Option Nat := none
  updated_at : Option Nat := none

/-- Embeds `MemberUpdate.model_dump(exclude_unset=True, exclude_none=True)`. -/
def MemberUpdateModel.dump (m : MemberUpdateModel) : Doc :=
  (match m.tribe_id with | some n => [("tribe_id", BVal.oid n)] | none => []) ++
  (match m.first_name with
   | some s => [("first_name", BVal.str s)] | none => []) ++
  (match m.middle_name with
   | some s => [("middle_name", BVal.str s)] | none => []) ++
  (match m.last_name with
   | some s => [("last_name", BVal.str s)] | none => []) ++
  (match m.address with | some s => [("address", BVal.str s)] | none => []) ++
  (match m.birthday with | some t => [("birthday", BVal.dt t)] | none => []) ++
  (match m.updated_at with | some t => [("updated_at", BVal.dt t)] | none => [])

/-- Embeds `MemberModel.update`: dump, stamp `updated_at`, guard on the empty
dict, `update_one` restricted to non-deleted rows, read back ignoring the
deletion state. -/
def update (c : Collection) (member_id : String)
    (update_data : MemberUpdateModel) (now : Nat)
    (allow_update_deleted : Bool) : Except PyErr (Doc × Collection) :=
  if !objectIdIsValid member_id then
    .error (.http 400 "Invalid ID format")
  else
    let obj := parseObjectId member_id
    let update_dict := update_data.dump
    let update_dict := dictSet update_dict "updated_at" (.dt now)
    if update_dict.isEmpty then
      .error (.http 400 "No update data provided")
    else
      let query : Query := [("_id", .eqv (.oid obj))]
      let query :=
        if !allow_update_deleted then dictMerge query (base_query false)
        else query
      let (matched, c2) := updateOneSet c query update_dict
      if matched = 0 then
        .error (.http 404 "Member not found or is deleted")
      else
        match get_by_id c2 (.oid obj) true with
        | .error e => .error e
        | .ok none => .error (.http 404 "Member not found after update")
        | .ok (some document) => .ok (document, c2)

/-- Embeds `MemberModel.delete`: hard delete removes the row; soft delete stamps
`deleted_at`/`updated_at` on a non-deleted row and reports success when
the row was already soft-deleted. -/
def delete (c : Collection) (member_id : String) (now : Nat)
    (hard_delete : Bool) : Except PyErr (Bool × Collection) :=
  if !objectIdIsValid member_id then
    .error (.http 400 "Invalid ID format")
  else
    let obj := parseObjectId member_id
    if hard_delete then
      let (deleted, c2) := deleteOne c [("_id", .eqv (.oid obj))]
      if deleted = 0 then
        .error (.http 404 "Member not found")
      else
        .ok (true, c2)
    else
      let update_doc : Doc :=
        [("deleted_at", .dt now), ("updated_at", .dt now)]
      let query := dictMerge [("_id", QVal.eqv (.oid obj))] (base_query false)
      let (matched, c2) := updateOneSet c query update_doc
      if matched = 0 then
        match findOne c [("_id", .eqv (.oid obj))] with
        | some _ => .ok (true, c)
        | none => .error (.http 404 "Member not found")
      else
        .ok (true, c2)

end MemberModel

namespace LifegroupModel

/-- Embeds `LifegroupModel._convert_objectids_to_str`: renders `_id`, `tribe_id`,
`leader_id` and `members` values; every element of a list value is passed
through Python `str`. -/
def convert (d : Doc) : Doc :=
  d.map (fun kv =>
    (kv.1,
     if kv.1 = "_id" ∨ kv.1 = "tribe_id" ∨ kv.1 = "leader_id" ∨
        kv.1 = "members" then
       match kv.2 with
       | .oid n => .str (oidToStr n)
       | .arr xs => .arr (xs.map (fun t => .str (pyStrOfBVal t)))
       | other => other
     else kv.2))

/-- Embeds `LifegroupModel._base_query`: the soft-delete `$or` filter unless
deleted rows are included. -/
def base_query (include_deleted : Bool) : Query :=
  if include_deleted then [] else [("$or", QVal.orDeletedAtNull)]

/-- Embeds `LifegroupModel.get_lifegroup_list`: a truthy search term is assigned
under the `"$or"` key of the query dict. -/
def get_lifegroup_list (c : Collection) (skip limit : Nat)
    (search_term : Option String) (include_deleted : Bool) :
    List Doc × Nat :=
  let query := base_query include_deleted
  let query :=
    if strTruthy search_term then
      dictSet query "$or"
        (QVal.orSearch ["name", "description"] (search_term.getD ""))
    else query
  let total_count := countDocuments c query
  let lifegroups := ((findDocs c query).drop skip).take limit
  (lifegroups.map convert, total_count)

/-- Embeds `LifegroupModel.get_by_id`: id validation, then lookup merged with the
soft-delete filter unless deleted rows are included. -/
def get_by_id (c : Collection) (lifegroup_id : IDLike)
    (include_deleted : Bool) : Except PyErr (Option Doc) :=
  match normalizeId lifegroup_id with
  | .error e => .error e
  | .ok obj =>
      let query : Query := [("_id", .eqv (.oid obj))]
      let query :=
        if !include_deleted then dictMerge query (base_query include_deleted)
        else query
      .ok ((findOne c query).map convert)

/-- Embeds `LifegroupModel.get_lifegroup_by_member_id`: first lifegroup whose
`members` array contains the member ObjectId (declared to return a list,
it actually returns one converted document or `None`). -/
def get_lifegroup_by_member_id (c : Collection) (member_id : String)
    (include_deleted : Bool) : Except PyErr (Option Doc) :=
  if !objectIdIsValid member_id then
    .error (.http 400 "Invalid member ID format")
  else
    let obj := parseObjectId member_id
    let query : Query := [("members", .eqv (.oid obj))]
    let query :=
      if !include_deleted then dictMerge query (base_query include_deleted)
      else query
    .ok ((findOne c query).map convert)

/-- Embeds `LifegroupUpdate` (pydantic), with `none` for unset-or-None fields. -/
structure LifegroupUpdateModel where
  name : Option String := none
  description : Option String := none
  tribe_id : Option Nat := none
  leader_id : Option Nat := none
  members : Option (List Nat) := none
  updated_at : Option Nat := none

/-- Embeds `LifegroupUpdate.model_dump(exclude_unset=True, exclude_none=True)`. -/
def LifegroupUpdateModel.dump (u : LifegroupUpdateModel) : Doc :=
  (match u.name with | some s => [("name", BVal.str s)] | none => []) ++
  (match u.description with
   | some s => [("description", BVal.str s)] | none => []) ++
  (match u.tribe_id with | some n => [("tribe_id", BVal.oid n)] | none => []) ++
  (match u.leader_id with
   | some n => [("leader_id", BVal.oid n)] | none => []) ++
  (match u.members with
   | some xs => [("members", BVal.arr (xs.map BVal.oid))] | none => []) ++
  (match u.updated_at with | some t => [("updated_at", BVal.dt t)] | none => [])

/-- The value passed as `update_data` to `LifegroupModel.update`: the
parameter is annotated `LifegroupUpdate`, but `MemberController` passes a
plain dict (`{"members": members}`) at three call sites, and Python does
not enforce the annotation. -/
inductive LifegroupUpdateArg where
  | model (u : LifegroupUpdateModel)
  | pydict (d : Doc)

/-- The `update_data.model_dump(exclude_unset=True, exclude_none=True)`
call inside `LifegroupModel.update`: on a pydantic model it dumps the set,
non-None fields; on a plain Python dict the attribute lookup
`model_dump` fails, raising `AttributeError` (dicts have no such method). -/
def dumpUpdateArg (arg : LifegroupUpdateArg) : Except PyErr Doc :=
  match arg with
  | .model u => .ok u.dump
  | .pydict _ => .error (.attributeError "dict object has no attribute model_dump")

/-- Embeds `LifegroupModel.update`: id validation, `model_dump` on the argument,
stamp `updated_at`, guard on the empty dict, `update_one` restricted to
non-deleted rows, read back ignoring the deletion state. -/
def update (c : Collection) (lifegroup_id : String)
    (update_data : LifegroupUpdateArg) (now : Nat)
    (allow_update_deleted : Bool) : Except PyErr (Doc × Collection) :=
  if !objectIdIsValid lifegroup_id then
    .error (.http 400 "Invalid ID format")
  else
    let obj := parseObjectId lifegroup_id
    match dumpUpdateArg update_data with
    | .error e => .error e
    | .ok update_dict =>
        let update_dict := dictSet update_dict "updated_at" (.dt now)
        if update_dict.isEmpty then
          .error (.http 400 "No update data provided")
        else
          let query : Query := [("_id", .eqv (.oid obj))]
          let query :=
            if !allow_update_deleted then dictMerge query (base_query false)
            else query
          let (matched, c2) := updateOneSet c query update_dict
          if matched = 0 then
            .error (.http 404 "Lifegroup not found or is deleted")
          else
            match get_by_id c2 (.oid obj) true with
            | .error e => .error e
            | .ok none => .error (.http 404 "Lifegroup not found after update")
            | .ok (some document) => .ok (document, c2)

end LifegroupModel

/-- Extract the underlying string of a string BSON value (the converted
`_id` values the member controller passes around are always strings). -/
def bvalAsStr (v : BVal) : String :=
  match v with
  | .str s => s
  | _ => ""

namespace AuthService

/-- The configured signing secret (`Hash.key`, from the `APP_KEY`
environment variable); its concrete value is irrelevant, both signing and
verification read this one constant, as in the source. -/
def SECRET_KEY : String := "app-key"

/-- The configured signing algorithm (`Hash.algorithm`, `HS256` default). -/
def ALGORITHM : String := "HS256"

/-- The payload of a JWT as this service builds it: an optional `sub`
claim and an `exp` timestamp. -/
structure JwtPayload where
  sub : Option String
  exp : Nat
  deriving Repr, BEq, DecidableEq

/-- A signed token: the payload together with the key and algorithm it
was signed with (`jwt.encode(to_encode, SECRET_KEY, algorithm=ALGORITHM)`). -/
structure Jwt where
  payload : JwtPayload
  key : String
  alg : String
  deriving Repr, BEq, DecidableEq

/-- Embeds `jwt.decode(token, key, algorithms=[...])` at time `now`: rejects a
wrong key or an unlisted algorithm (`InvalidTokenError`), rejects an
elapsed expiry (`ExpiredSignatureError`, a subclass of
`InvalidTokenError`; PyJWT rejects when `exp <= now`), otherwise yields
the payload. -/
def jwtDecode (t : Jwt) (key : String) (algorithms : List String)
    (now : Nat) : Except String JwtPayload :=
  if t.key != key || !(algorithms.contains t.alg) then
    .error "InvalidTokenError"
  else if t.payload.exp ≤ now then
    .error "ExpiredSignatureError"
  else
    .ok t.payload

/-- Embeds `get_password_hash` (passlib bcrypt): modelled as a fixed injective
tagging of the plaintext; `verify_password` checks a plaintext against a
digest, so the pair satisfies the hash/verify contract of section 4.1. -/
def get_password_hash (password : String) : String :=
  "bcrypt$" ++ password

/-- Embeds `verify_password(plain, hashed)`: true exactly on matching digests. -/
def verify_password (plain_password hashed_password : String) : Bool :=
  get_password_hash plain_password == hashed_password

/-- Embeds `create_access_token(data={"sub": sub}, expires_delta)`: expiry is
`now + expires_delta` for a truthy delta (a zero `timedelta` is falsy in
Python), else `now + 15 minutes`; signed with the configured key and
algorithm. -/
def create_access_token (sub : String) (expires_delta : Option Nat)
    (now : Nat) : Jwt :=
  let expire :=
    if (match expires_delta with | some d => d != 0 | none => false) then
      now + expires_delta.getD 0
    else
      now + 15 * 60
  { payload := { sub := some sub, exp := expire },
    key := SECRET_KEY, alg := ALGORITHM }

/-- Embeds `TokenData`: the verified subject (named `email`, holding a user id). -/
structure TokenData where
  email : String
  deriving Repr, BEq, DecidableEq

/-- Embeds `verify_token`: decode with the configured key and algorithm; any
decode failure or a missing `sub` claim raises `HTTPException(401)`. -/
def verify_token (token : Jwt) (now : Nat) : Except PyErr TokenData :=
  match jwtDecode token SECRET_KEY [ALGORITHM] now with
  | .error _ => .error (.http 401 "Could not validate credentials")
  | .ok payload =>
      match payload.sub with
      | none => .error (.http 401 "Could not validate credentials")
      | some email => .ok { email := email }

/-- Modelled from the spec: `create_refresh_token` is imported by
`AuthController` from `app.services.AuthService` but is defined nowhere
under the source tree. Section 4.2: the refresh token is longer-lived and
uses the same signing mechanism as the access token, so it is issued like
an access token with its own expiry delta. -/
def create_refresh_token (sub : String) (expires_delta : Option Nat)
    (now : Nat) : Jwt :=
  create_access_token sub expires_delta now

/-- The new access/refresh pair returned by the refresh exchange. -/
structure TokenPair where
  access_token : Jwt
  refresh_token : Jwt
  deriving Repr, BEq, DecidableEq

/-- Modelled from the spec: `use_refresh_token` is imported by
`AuthController` and wired to `POST /auth/refresh` but is defined nowhere
under the source tree. Section 4.2: the exchange verifies the refresh
token and, if it is valid, issues a new access token and a new refresh
token (rotation), both with fresh expiries; any verification failure is
an `Unauthorized` condition. -/
def use_refresh_token (token : Jwt) (access_delta refresh_delta now : Nat) :
    Except PyErr TokenPair :=
  match verify_token token now with
  | .error e => .error e
  | .ok token_data =>
      .ok { access_token :=
              create_access_token token_data.email (some access_delta) now,
            refresh_token :=
              create_refresh_token token_data.email (some refresh_delta) now }

end AuthService

/-- The pagination envelope built by `Helper.paginate`. -/
structure Pagination where
  total_items : Nat
  total_pages : Nat
  current_page : Nat
  page_size : Nat
  next_page : Option Nat
  prev_page : Option Nat
  search_term : Option String
  deriving Repr, BEq, DecidableEq

/-- A paginated list response `{data, pagination}`. -/
structure Paginated where
  data : List Doc
  pagination : Pagination
  deriving Repr, BEq

namespace Helper

/-- Embeds `Helper.paginate` from `app/libs/helper.py`, verbatim: ceiling-style
total pages, `next_page` only while `skip + page_size < total_count`,
`prev_page` only past page 1. -/
def paginate (data : List Doc) (total_count skip page page_size : Nat)
    (search : Option String) : Paginated :=
  { data := data,
    pagination :=
      { total_items := total_count,
        total_pages := (total_count + page_size - 1) / page_size,
        current_page := page,
        page_size := page_size,
        next_page :=
          if skip + page_size < total_count then some (page + 1) else none,
        prev_page := if page > 1 then some (page - 1) else none,
        search_term := search } }

end Helper

/-- The reads of `Hash.refresh_token_expire_minutes` in
`AuthController.login`: the `Hash` class in `app/config/credentials.py`
defines only `key`, `algorithm` and `access_token_expire_minutes`, so
this attribute lookup raises `AttributeError`. -/
def hashRefreshTokenExpireMinutes : Except PyErr Nat :=
  .error (.attributeError
    "type object Hash has no attribute refresh_token_expire_minutes")

/-- The database handle: one collection per entity (the lifegroup
collection keeps the source's name `lifregroups`). -/
structure DB where
  users : Collection
  tribes : Collection
  members : Collection
  lifregroups : Collection
  deriving Repr, BEq

/-- What an endpoint handler produces: a JSON response with a status and
a body document, or an exception that escaped `except HTTPException`. -/
inductive CtrlOut where
  | resp (status : Nat) (body : Doc)
  | uncaught (e : PyErr)
  deriving Repr, BEq

namespace AuthController

/-- The `except HTTPException` blocks of `AuthController`: every caught
`HTTPException` becomes a status-400 JSON error response (the original
status code is discarded); non-HTTP exceptions escape. -/
def catchToBadRequest (e : PyErr) : CtrlOut :=
  match e with
  | .http _ detail => .resp 400 [("error", .str detail)]
  | other => .uncaught other

/-- Embeds `POST /auth/login`: absent user raises 404 and a failed password
check raises 401, both caught and returned as status 400; on a verified
password the handler builds the access expiry and then reads the missing
`Hash.refresh_token_expire_minutes` attribute, so the success response is
never reached (its body construction is elided as unreachable). -/
def login (db : DB) (email password : String) (now : Nat) : CtrlOut :=
  let user := UserModel.get_by_email db.users email
  if !docTruthy user then
    catchToBadRequest (.http 404 "User not found")
  else
    let u := user.getD []
    let hashed :=
      match dictGet u "password" with
      | some (.str h) => h
      | _ => ""
    if !AuthService.verify_password password hashed then
      catchToBadRequest (.http 401 "Invalid credentials")
    else
      let userId := bvalAsStr ((dictGet u "_id").getD .null)
      let _access_token :=
        AuthService.create_access_token userId (some (60 * 60)) now
      match hashRefreshTokenExpireMinutes with
      | .error e => .uncaught e
      | .ok _ => .resp 200 []

end AuthController

namespace MemberController

/-- The `except HTTPException` blocks of `MemberController`: a caught
`HTTPException` keeps its status code in the JSON error response;
non-HTTP exceptions (such as `AttributeError`) escape the handler. -/
def catchHttp (e : PyErr) : CtrlOut :=
  match e with
  | .http st detail => .resp st [("error", .str detail)]
  | other => .uncaught other

/-- The body of `POST /members/` (`CreateMemberRequest`). -/
structure CreateMemberRequestData where
  first_name : String
  middle_name : Option String
  last_name : String
  address : String
  birthday : Nat
  tribe_id : String
  lifegroup_id : Option String

/-- Embeds `MemberCreate(**payload)`: `tribe_id` passes PyObjectId validation
(raising a pydantic `ValidationError` on a malformed id); the payload key
`lifegroup_id` does not match the schema field `life_group_id` and is
silently ignored as an extra, so `life_group_id` keeps its `None`
default; the timestamps come from their `default_factory`. -/
def memberCreateOfPayload (r : CreateMemberRequestData) (now : Nat) :
    Except PyErr MemberModel.MemberCreateModel :=
  if !objectIdIsValid r.tribe_id then
    .error (.validationError "Invalid ObjectId")
  else
    .ok { first_name := r.first_name, middle_name := r.middle_name,
          last_name := r.last_name, address := r.address,
          birthday := r.birthday, tribe_id := parseObjectId r.tribe_id,
          life_group_id := none, created_at := now, updated_at := now }

/-- The `members` value of a lifegroup document as the controller reads
it: `lifegroup.get("members", []) or []` (the field only ever holds an
array or null). -/
def membersField (lg : Doc) : List BVal :=
  match dictGet lg "members" with
  | some (.arr xs) => xs
  | _ => []

/-- Embeds `POST /members/` (`MemberController.store`): create the member; on a
truthy `lifegroup_id`, look the lifegroup up (404 when absent), append
the new member id to its members and call `LifegroupModel.update` with a
plain dict. -/
def store (db : DB) (payload : CreateMemberRequestData) (now freshId : Nat) :
    CtrlOut × DB :=
  match memberCreateOfPayload payload now with
  | .error e => (.uncaught e, db)
  | .ok mc =>
    match MemberModel.create db.members mc freshId with
    | .error e => (catchHttp e, db)
    | .ok (result, members2) =>
      let db2 := { db with members := members2 }
      if strTruthy payload.lifegroup_id then
        let lgid := payload.lifegroup_id.getD ""
        match LifegroupModel.get_by_id db2.lifregroups (.s lgid) false with
        | .error e => (catchHttp e, db2)
        | .ok lifegroupOpt =>
          if !docTruthy lifegroupOpt then
            (catchHttp (.http 404 "Lifegroup not found"), db2)
          else
            let lifegroup := lifegroupOpt.getD []
            let existing_members := membersField lifegroup
            let newId := (dictGet result "_id").getD .null
            let members := existing_members ++ [newId]
            match LifegroupModel.update db2.lifregroups lgid
                (.pydict [("members", .arr members)]) now false with
            | .error e => (catchHttp e, db2)
            | .ok (_, lgs2) =>
                (.resp 201 result, { db2 with lifregroups := lgs2 })
      else
        (.resp 201 result, db2)

/-- The body of `PUT /members/{id}` (`UpdateMemberRequest`). -/
structure UpdateMemberRequestData where
  first_name : Option String := none
  middle_name : Option String := none
  last_name : Option String := none
  address : Option String := none
  birthday : Option Nat := none
  tribe_id : Option String := none
  lifegroup_id : Option String := none

/-- Embeds `MemberUpdate(**payload)`: a provided `tribe_id` passes PyObjectId
validation; `lifegroup_id` is ignored as an extra (`MemberUpdate` has no
such field), and `updated_at` stays unset. -/
def memberUpdateOfPayload (r : UpdateMemberRequestData) :
    Except PyErr MemberModel.MemberUpdateModel :=
  match r.tribe_id with
  | some t =>
      if !objectIdIsValid t then .error (.validationError "Invalid ObjectId")
      else
        .ok { tribe_id := some (parseObjectId t),
              first_name := r.first_name, middle_name := r.middle_name,
              last_name := r.last_name, address := r.address,
              birthday := r.birthday }
  | none =>
      .ok { tribe_id := none,
            first_name := r.first_name, middle_name := r.middle_name,
            last_name := r.last_name, address := r.address,
            birthday := r.birthday }

/-- Embeds `PUT /members/{id}` (`MemberController.update`): fetch the member,
apply the member update, then on a truthy `lifegroup_id` fetch the target
lifegroup (404 when absent), remove the member id from the lifegroup
found by `get_lifegroup_by_member_id` (when any), and append it to the
target fetched before that removal — both via `LifegroupModel.update`
called with plain dicts. -/
def update (db : DB) (member_id : String) (payload : UpdateMemberRequestData)
    (now : Nat) : CtrlOut × DB :=
  match MemberModel.get_by_id db.members (.s member_id) false with
  | .error e => (catchHttp e, db)
  | .ok existingOpt =>
    if !docTruthy existingOpt then
      (catchHttp (.http 404 "Member not found"), db)
    else
      let existing_data := existingOpt.getD []
      match memberUpdateOfPayload payload with
      | .error e => (.uncaught e, db)
      | .ok mu =>
        match MemberModel.update db.members member_id mu now false with
        | .error e => (catchHttp e, db)
        | .ok (result, members2) =>
          let db2 := { db with members := members2 }
          if strTruthy payload.lifegroup_id then
            let lgid := payload.lifegroup_id.getD ""
            match LifegroupModel.get_by_id db2.lifregroups (.s lgid) false with
            | .error e => (catchHttp e, db2)
            | .ok lifegroupOpt =>
              if !docTruthy lifegroupOpt then
                (catchHttp (.http 404 "Lifegroup not found"), db2)
              else
                let lifegroup := lifegroupOpt.getD []
                let edId := (dictGet existing_data "_id").getD .null
                match LifegroupModel.get_lifegroup_by_member_id
                    db2.lifregroups (bvalAsStr edId) false with
                | .error e => (catchHttp e, db2)
                | .ok oldLgOpt =>
                  let afterOld : Except PyErr Collection :=
                    if docTruthy oldLgOpt then
                      let old_lg := oldLgOpt.getD []
                      let old_lg_members :=
                        (membersField old_lg).filter (fun m => !(m == edId))
                      (LifegroupModel.update db2.lifregroups
                          (bvalAsStr ((dictGet old_lg "_id").getD .null))
                          (.pydict [("members", .arr old_lg_members)])
                          now false).map (fun p => p.2)
                    else
                      .ok db2.lifregroups
                  match afterOld with
                  | .error e => (catchHttp e, db2)
                  | .ok lgs3 =>
                    let db3 := { db2 with lifregroups := lgs3 }
                    let newId := (dictGet result "_id").getD .null
                    let members := membersField lifegroup ++ [newId]
                    match LifegroupModel.update db3.lifregroups lgid
                        (.pydict [("members", .arr members)]) now false with
                    | .error e => (catchHttp e, db3)
                    | .ok (_, lgs4) =>
                        (.resp 200 result, { db3 with lifregroups := lgs4 })
          else
            (.resp 200 result, db2)

/-- Embeds `DELETE /members/{id}` (`MemberController.delete`): fetch the member,
remove its id from the lifegroup found by `get_lifegroup_by_member_id`
(when any) via `LifegroupModel.update` with a plain dict, then soft-delete
the member row. -/
def delete (db : DB) (member_id : String) (now : Nat) : CtrlOut × DB :=
  match MemberModel.get_by_id db.members (.s member_id) false with
  | .error e => (catchHttp e, db)
  | .ok existingOpt =>
    if !docTruthy existingOpt then
      (catchHttp (.http 404 "Member not found"), db)
    else
      let existing_data := existingOpt.getD []
      let edId := (dictGet existing_data "_id").getD .null
      match LifegroupModel.get_lifegroup_by_member_id
          db.lifregroups (bvalAsStr edId) false with
      | .error e => (catchHttp e, db)
      | .ok oldLgOpt =>
        let afterOld : Except PyErr Collection :=
          if docTruthy oldLgOpt then
            let old_lg := oldLgOpt.getD []
            let old_lg_members :=
              (membersField old_lg).filter (fun m => !(m == edId))
            (LifegroupModel.update db.lifregroups
                (bvalAsStr ((dictGet old_lg "_id").getD .null))
                (.pydict [("members", .arr old_lg_members)])
                now false).map (fun p => p.2)
          else
            .ok db.lifregroups
        match afterOld with
        | .error e => (catchHttp e, db)
        | .ok lgs2 =>
          let db2 := { db with lifregroups := lgs2 }
          match MemberModel.delete db2.members member_id now false with
          | .error e => (catchHttp e, db2)
          | .ok (_, members2) =>
              (.resp 204 [], { db2 with members := members2 })

end MemberController

/-- Reading a key after a value-only entry map rewrites the value. -/
theorem dictGet_mapEntries (f : String → BVal → BVal) (d : Doc) (k : String) :
    dictGet (d.map (fun kv => (kv.1, f kv.1 kv.2))) k =
      (dictGet d k).map (f k) := by
  induction d with
  | nil => rfl
  | cons hd tl ih =>
      obtain ⟨k', v⟩ := hd
      by_cases h : k' = k
      · subst h
        simp [dictGet]
      · simp [dictGet, h, ih]

/-- The password projection removes exactly the password key. -/
theorem dictGet_projExcludePassword (d : Doc) (k : String) :
    dictGet (projExcludePassword d) k =
      if k = "password" then none else dictGet d k := by
  induction d with
  | nil => simp [projExcludePassword, dictGet]
  | cons hd tl ih =>
      obtain ⟨k', v⟩ := hd
      by_cases hv : k' = "password"
      · subst hv
        have hstep :
            projExcludePassword (("password", v) :: tl) =
              projExcludePassword tl := by
          simp [projExcludePassword]
        rw [hstep, ih]
        by_cases hk : k = "password"
        · simp [hk]
        · simp [hk, dictGet, Ne.symm hk]
      · have hstep :
            projExcludePassword ((k', v) :: tl) =
              (k', v) :: projExcludePassword tl := by
          simp [projExcludePassword, hv]
        rw [hstep]
        by_cases hk : k' = k
        · subst hk
          simp [dictGet, hv]
        · simp [dictGet, hk, ih]

/-- A dict assignment never produces the empty dict. -/
theorem dictSet_ne_empty {α : Type} (d : List (String × α)) (k : String)
    (v : α) : (dictSet d k v).isEmpty = false := by
  cases d with
  | nil => rfl
  | cons hd tl =>
      obtain ⟨k', v'⟩ := hd
      by_cases h : k' = k <;> simp [dictSet, h]

/-- A matching document satisfies each condition of the query. -/
theorem condMatches_of_docMatches {d : Doc} {q : Query} {kv : String × QVal}
    (hq : docMatches d q = true) (hm : kv ∈ q) : condMatches d kv = true := by
  exact (List.all_eq_true.mp hq) kv hm

/-- Assigning one key of a query dict keeps entries under other keys. -/
theorem mem_dictSet_of_key_ne {α : Type} {d : List (String × α)}
    {kv : String × α} (hm : kv ∈ d) (k : String) (v : α) (hne : kv.1 ≠ k) :
    kv ∈ dictSet d k v := by
  induction d with
  | nil => cases hm
  | cons hd tl ih =>
      obtain ⟨k', v'⟩ := hd
      by_cases h : k' = k
      · have hstep : dictSet ((k', v') :: tl) k v = (k, v) :: tl := by
          simp [dictSet, h]
        rw [hstep]
        rcases List.mem_cons.mp hm with h1 | h1
        · exact absurd ((congrArg Prod.fst h1).trans h) hne
        · exact List.mem_cons.mpr (Or.inr h1)
      · have hstep :
            dictSet ((k', v') :: tl) k v = (k', v') :: dictSet tl k v := by
          simp [dictSet, h]
        rw [hstep]
        rcases List.mem_cons.mp hm with h1 | h1
        · exact List.mem_cons.mpr (Or.inl h1)
        · exact List.mem_cons.mpr (Or.inr (ih h1))

/-- C9: for every `total_items`, `page`, `page_size` and
`skip = (page - 1) * page_size`, the pagination envelope has
`total_pages = ceil(total_items / page_size)`, `next_page = page + 1`
exactly when `skip + page_size < total_items` (else null), and
`prev_page = page - 1` exactly when `page > 1` (else null); in
particular, with 25 items and page size 10, page 1 has `next_page = 2`
and no `prev_page`, and page 3 has no `next_page` and `prev_page = 2`. -/
theorem helper_paginate_spec (data : List Doc) (search : Option String)
    (total_items page page_size : Nat) :
    ((Helper.paginate data total_items ((page - 1) * page_size) page
        page_size search).pagination.total_pages =
      total_items ⌈/⌉ page_size) ∧
    ((Helper.paginate data total_items ((page - 1) * page_size) page
        page_size search).pagination.next_page =
      if (page - 1) * page_size + page_size < total_items then
        some (page + 1)
      else none) ∧
    ((Helper.paginate data total_items ((page - 1) * page_size) page
        page_size search).pagination.prev_page =
      if page > 1 then some (page - 1) else none) ∧
    (Helper.paginate data 25 0 1 10 search).pagination.next_page = some 2 ∧
    (Helper.paginate data 25 0 1 10 search).pagination.prev_page = none ∧
    (Helper.paginate data 25 20 3 10 search).pagination.next_page = none ∧
    (Helper.paginate data 25 20 3 10 search).pagination.prev_page = some 2 :=
  ⟨rfl, rfl, rfl, rfl, rfl, rfl, rfl⟩

/-- A token minted by `create_access_token` verifies to its subject under
the configured key and algorithm as long as its expiry has not elapsed. -/
theorem verify_create_access (u : String) (delta : Option Nat)
    (issuedAt now : Nat)
    (hfresh :
      now < (AuthService.create_access_token u delta issuedAt).payload.exp) :
    AuthService.verify_token
        (AuthService.create_access_token u delta issuedAt) now =
      .ok { email := u } := by
  unfold AuthService.verify_token AuthService.jwtDecode
  simp only [AuthService.create_access_token] at hfresh ⊢
  simp [List.contains, Nat.not_le.mpr hfresh]

/-- C8: for every user id `u`, a token produced by `create_access_token`
with subject `u` whose expiry has not yet elapsed, when passed to
`verify_token` under the same secret key and algorithm, succeeds and
yields exactly the subject `u` (no `Unauthorized` error is raised). -/
theorem create_access_verify_roundtrip (u : String) (delta : Option Nat)
    (issuedAt now : Nat)
    (hfresh :
      now < (AuthService.create_access_token u delta issuedAt).payload.exp) :
    AuthService.verify_token
        (AuthService.create_access_token u delta issuedAt) now =
      .ok { email := u } :=
  verify_create_access u delta issuedAt now hfresh

/-- Witness for C8 at a concrete subject, expiry delta and clock. -/
theorem create_access_verify_roundtrip_witness :
    AuthService.verify_token
        (AuthService.create_access_token "user1" (some 3600) 0) 10 =
      .ok { email := "user1" } :=
  create_access_verify_roundtrip "user1" (some 3600) 0 10 (by decide)

/-- C1 (modelled from the spec, `use_refresh_token` being absent from the
source tree): for every refresh token for user `u` that is correctly
signed (issued by `create_refresh_token` under the configured key) and
unexpired, the refresh exchange verifies it and returns a new access
token and a new refresh token, both with fresh expiries
(`now + access_delta` and `now + refresh_delta`). -/
theorem use_refresh_token_valid_rotates (u : String)
    (issued_delta : Option Nat)
    (issuedAt access_delta refresh_delta now : Nat)
    (had : access_delta ≠ 0) (hrd : refresh_delta ≠ 0)
    (hvalid :
      now <
        (AuthService.create_refresh_token u issued_delta issuedAt).payload.exp) :
    AuthService.use_refresh_token
        (AuthService.create_refresh_token u issued_delta issuedAt)
        access_delta refresh_delta now =
      .ok { access_token :=
              { payload := { sub := some u, exp := now + access_delta },
                key := AuthService.SECRET_KEY,
                alg := AuthService.ALGORITHM },
            refresh_token :=
              { payload := { sub := some u, exp := now + refresh_delta },
                key := AuthService.SECRET_KEY,
                alg := AuthService.ALGORITHM } } := by
  unfold AuthService.use_refresh_token
  rw [show AuthService.create_refresh_token u issued_delta issuedAt =
        AuthService.create_access_token u issued_delta issuedAt from rfl] at hvalid ⊢
  rw [verify_create_access u issued_delta issuedAt now hvalid]
  simp [AuthService.create_access_token, AuthService.create_refresh_token,
    had, hrd]

/-- Witness for C1 at a concrete subject, deltas and clock. -/
theorem use_refresh_token_valid_rotates_witness :
    AuthService.use_refresh_token
        (AuthService.create_refresh_token "user1" (some 7200) 0)
        3600 7200 100 =
      .ok { access_token :=
              { payload := { sub := some "user1", exp := 100 + 3600 },
                key := AuthService.SECRET_KEY,
                alg := AuthService.ALGORITHM },
            refresh_token :=
              { payload := { sub := some "user1", exp := 100 + 7200 },
                key := AuthService.SECRET_KEY,
                alg := AuthService.ALGORITHM } } :=
  use_refresh_token_valid_rotates "user1" (some 7200) 0 3600 7200 100
    (by decide) (by decide) (by decide)

/-- Recognizer for the `HTTPException(400, "No update data provided")`
outcome of a repository update. -/
def isNoUpdateDataErr {α : Type} (r : Except PyErr α) : Bool :=
  match r with
  | .error (.http 400 "No update data provided") => true
  | _ => false

/-- A concrete member row used to evaluate the all-fields-unset update. -/
def demoMemberRow : Doc :=
  [("_id", .oid 5), ("first_name", .str "John"), ("updated_at", .dt 1)]

/-- A concrete user row (with a stored password hash). -/
def demoUserRow : Doc :=
  [("_id", .oid 9), ("email", .str "a@x.com"),
   ("password", .str "bcrypt$secret"), ("updated_at", .dt 1)]

/-- A concrete lifegroup row whose members list holds member 5. -/
def demoLifegroupRow : Doc :=
  [("_id", .oid 7), ("name", .str "Alpha"), ("members", .arr [.oid 5]),
   ("updated_at", .dt 1)]

/-- C10: in every `update` of the Member, User and Lifegroup repositories
the update document is non-empty once `updated_at` is stamped, so the
`No update data provided` BadRequest branch is unreachable; concretely,
an update in which every field is unset or None succeeds and changes only
the `updated_at` timestamp. -/
theorem update_empty_payload_succeeds :
    (∀ (c : Collection) (id : String) (u : MemberModel.MemberUpdateModel)
        (now : Nat) (b : Bool),
        isNoUpdateDataErr (MemberModel.update c id u now b) = false) ∧
    (∀ (c : Collection) (id : String) (u : UserModel.UserUpdateModel)
        (now : Nat),
        isNoUpdateDataErr (UserModel.update c id u now) = false) ∧
    (∀ (c : Collection) (id : String)
        (arg : LifegroupModel.LifegroupUpdateArg) (now : Nat) (b : Bool),
        isNoUpdateDataErr (LifegroupModel.update c id arg now b) = false) ∧
    MemberModel.update [demoMemberRow] "5" {} 77 false =
      .ok ([("_id", .str "5"), ("first_name", .str "John"),
            ("updated_at", .dt 77)],
           [[("_id", .oid 5), ("first_name", .str "John"),
             ("updated_at", .dt 77)]]) ∧
    UserModel.update [demoUserRow] "9" {} 77 =
      .ok ([("_id", .str "9"), ("email", .str "a@x.com"),
            ("updated_at", .dt 77)],
           [[("_id", .oid 9), ("email", .str "a@x.com"),
             ("password", .str "bcrypt$secret"), ("updated_at", .dt 77)]]) ∧
    LifegroupModel.update [demoLifegroupRow] "7" (.model {}) 77 false =
      .ok ([("_id", .str "7"), ("name", .str "Alpha"),
            ("members", .arr [.str "5"]), ("updated_at", .dt 77)],
           [[("_id", .oid 7), ("name", .str "Alpha"),
             ("members", .arr [.oid 5]), ("updated_at", .dt 77)]]) := by
  refine ⟨?_, ?_, ?_, by rfl, by rfl, by rfl⟩
  · intro c id u now b
    unfold MemberModel.update
    simp only [MemberModel.get_by_id, normalizeId, dictSet_ne_empty,
      Bool.false_eq_true, if_false, Bool.not_true]
    repeat' split
    all_goals first | decide | rfl | simp_all
  · intro c id u now
    unfold UserModel.update
    simp only [UserModel.get_by_id, normalizeId, dictSet_ne_empty,
      Bool.false_eq_true, if_false, Bool.not_true]
    repeat' split
    all_goals first | decide | rfl | simp_all
  · intro c id arg now b
    cases arg with
    | pydict d =>
        unfold LifegroupModel.update
        simp only [LifegroupModel.dumpUpdateArg]
        split
        · decide
        · decide
    | model u =>
        unfold LifegroupModel.update
        simp only [LifegroupModel.dumpUpdateArg, LifegroupModel.get_by_id,
          normalizeId, dictSet_ne_empty, Bool.false_eq_true, if_false,
          Bool.not_true]
        repeat' split
        all_goals first | decide | rfl | simp_all

/-- A document that exposes no password field. -/
def docNoPassword (d : Doc) : Bool := (dictGet d "password").isNone

/-- A single-document read result that exposes no password field. -/
def optNoPassword (r : Except PyErr (Option Doc)) : Bool :=
  match r with
  | .ok (some d) => docNoPassword d
  | _ => true

/-- A create result whose returned document exposes no password field. -/
def createNoPassword (r : Except PyErr (Doc × Collection)) : Bool :=
  match r with
  | .ok p => docNoPassword p.1
  | .error _ => true

/-- Embeds `UserModel.convert` rewrites values without touching keys. -/
theorem dictGet_userConvert (d : Doc) (k : String) :
    dictGet (UserModel.convert d) k =
      (dictGet d k).map
        (fun v => if k = "_id" then convValOidToStr v else v) :=
  dictGet_mapEntries (fun k v => if k = "_id" then convValOidToStr v else v) d k

/-- After the password projection and the id conversion, no password
field remains. -/
theorem convert_proj_no_password (d : Doc) :
    docNoPassword (UserModel.convert (projExcludePassword d)) = true := by
  unfold docNoPassword
  rw [dictGet_userConvert, dictGet_projExcludePassword]
  simp

/-- C5 (amended): every document returned by `get_user_list`,
`get_by_id` and the read-back in `create` contains no password field;
`get_all` is excluded, as shown false by its counterexample. -/
theorem user_reads_exclude_password_except_get_all :
    (∀ (c : Collection) (skip limit : Nat) (st : Option String),
        (UserModel.get_user_list c skip limit st).1.all docNoPassword =
          true) ∧
    (∀ (c : Collection) (id : IDLike),
        optNoPassword (UserModel.get_by_id c id) = true) ∧
    (∀ (c : Collection) (u : UserModel.UserCreateModel) (freshId : Nat),
        createNoPassword (UserModel.create c u freshId) = true) := by
  refine ⟨?_, ?_, ?_⟩
  · intro c skip limit st
    rw [List.all_eq_true]
    intro d hd
    unfold UserModel.get_user_list at hd
    simp only [List.mem_map] at hd
    obtain ⟨d1, hd1, rfl⟩ := hd
    have hd2 := List.drop_subset _ _ (List.take_subset _ _ hd1)
    simp only [List.mem_map] at hd2
    obtain ⟨d2, _, rfl⟩ := hd2
    exact convert_proj_no_password d2
  · intro c id
    unfold UserModel.get_by_id
    cases h : normalizeId id with
    | error e => rfl
    | ok obj =>
        dsimp only
        cases hfind : findOne c [("_id", QVal.eqv (BVal.oid obj))] with
        | none => rfl
        | some d => exact convert_proj_no_password d
  · intro c u freshId
    unfold UserModel.create
    dsimp only
    cases hfind :
        findOne (insertDoc c (dictSet u.dump "_id" (BVal.oid freshId)))
          [("_id", QVal.eqv (BVal.oid freshId))] with
    | none => rfl
    | some d => exact convert_proj_no_password d

/-- Counterexample to C5 as stated: `UserModel.get_all` applies no
projection, so a stored password hash comes back verbatim. -/
theorem user_get_all_returns_password_counterexample :
    UserModel.get_all [demoUserRow] =
      [[("_id", .str "9"), ("email", .str "a@x.com"),
        ("password", .str "bcrypt$secret"), ("updated_at", .dt 1)]] ∧
    docNoPassword
      [("_id", BVal.str "9"), ("email", BVal.str "a@x.com"),
       ("password", BVal.str "bcrypt$secret"), ("updated_at", BVal.dt 1)] =
      false :=
  ⟨rfl, rfl⟩

/-- A document not marked soft-deleted by a `deleted_at` timestamp (the
Member and Lifegroup convention). -/
def notSoftDeletedAt (d : Doc) : Bool :=
  match dictGet d "deleted_at" with
  | none => true
  | some .null => true
  | some _ => false

/-- A document not marked soft-deleted by a `deleted` flag (the Tribe
convention). -/
def notDeletedFlag (d : Doc) : Bool :=
  match dictGet d "deleted" with
  | some (.bool true) => false
  | _ => true

/-- Embeds `MemberModel.convert` rewrites values without touching keys. -/
theorem dictGet_memberConvert (d : Doc) (k : String) :
    dictGet (MemberModel.convert d) k =
      (dictGet d k).map
        (fun v =>
          if k = "_id" ∨ k = "tribe_id" ∨ k = "life_group_id" then
            match v with
            | .oid n => .str (oidToStr n)
            | .arr xs => .arr (xs.map convValOidToStr)
            | other => other
          else v) :=
  dictGet_mapEntries
    (fun k v =>
      if k = "_id" ∨ k = "tribe_id" ∨ k = "life_group_id" then
        match v with
        | .oid n => .str (oidToStr n)
        | .arr xs => .arr (xs.map convValOidToStr)
        | other => other
      else v) d k

/-- Embeds `LifegroupModel.convert` rewrites values without touching keys. -/
theorem dictGet_lifegroupConvert (d : Doc) (k : String) :
    dictGet (LifegroupModel.convert d) k =
      (dictGet d k).map
        (fun v =>
          if k = "_id" ∨ k = "tribe_id" ∨ k = "leader_id" ∨
             k = "members" then
            match v with
            | .oid n => .str (oidToStr n)
            | .arr xs => .arr (xs.map (fun t => .str (pyStrOfBVal t)))
            | other => other
          else v) :=
  dictGet_mapEntries
    (fun k v =>
      if k = "_id" ∨ k = "tribe_id" ∨ k = "leader_id" ∨ k = "members" then
        match v with
        | .oid n => .str (oidToStr n)
        | .arr xs => .arr (xs.map (fun t => .str (pyStrOfBVal t)))
        | other => other
      else v) d k

/-- Embeds `TribeModel.convert` rewrites values without touching keys. -/
theorem dictGet_tribeConvert (d : Doc) (k : String) :
    dictGet (TribeModel.convert d) k =
      (dictGet d k).map
        (fun v => if k = "_id" then convValOidToStr v else v) :=
  dictGet_mapEntries (fun k v => if k = "_id" then convValOidToStr v else v)
    d k

/-- The member conversion does not change the `deleted_at` field. -/
theorem notSoftDeletedAt_memberConvert (d : Doc) :
    notSoftDeletedAt (MemberModel.convert d) = notSoftDeletedAt d := by
  unfold notSoftDeletedAt
  rw [dictGet_memberConvert]
  cases dictGet d "deleted_at" with
  | none => rfl
  | some v => simp

/-- The lifegroup conversion does not change the `deleted_at` field. -/
theorem notSoftDeletedAt_lifegroupConvert (d : Doc) :
    notSoftDeletedAt (LifegroupModel.convert d) = notSoftDeletedAt d := by
  unfold notSoftDeletedAt
  rw [dictGet_lifegroupConvert]
  cases dictGet d "deleted_at" with
  | none => rfl
  | some v => simp

/-- The tribe conversion does not change the `deleted` field. -/
theorem notDeletedFlag_tribeConvert (d : Doc) :
    notDeletedFlag (TribeModel.convert d) = notDeletedFlag d := by
  unfold notDeletedFlag
  rw [dictGet_tribeConvert]
  cases dictGet d "deleted" with
  | none => rfl
  | some v => simp

/-- The password projection does not change the `deleted_at` field. -/
theorem notSoftDeletedAt_proj (d : Doc) :
    notSoftDeletedAt (projExcludePassword d) = notSoftDeletedAt d := by
  unfold notSoftDeletedAt
  rw [dictGet_projExcludePassword]
  simp

/-- C6 (amended): with `include_deleted = false`, `get_member_list` and
`get_lifegroup_list` return no soft-deleted document when the search
term is falsy (absent or empty); a truthy search term overwrites the
soft-delete filter (both live under the query dict key `"$or"`), as the
counterexample shows. `get_tribe_list` keeps its `deleted` filter under
every search term, since that filter lives under a different key. -/
theorem list_soft_delete_filter_amended :
    (∀ (c : Collection) (skip limit : Nat) (st : Option String),
        strTruthy st = false →
        (MemberModel.get_member_list c skip limit st false).1.all
            notSoftDeletedAt = true) ∧
    (∀ (c : Collection) (skip limit : Nat) (st : Option String),
        strTruthy st = false →
        (LifegroupModel.get_lifegroup_list c skip limit st false).1.all
            notSoftDeletedAt = true) ∧
    (∀ (c : Collection) (skip limit : Nat) (st : Option String),
        (TribeModel.get_tribe_list c skip limit st false).1.all
            notDeletedFlag = true) := by
  refine ⟨?_, ?_, ?_⟩
  · intro c skip limit st hst
    rw [List.all_eq_true]
    intro d hd
    unfold MemberModel.get_member_list at hd
    simp only [hst, Bool.false_eq_true, if_false, List.mem_map] at hd
    obtain ⟨d1, hd1, rfl⟩ := hd
    have hd2 := List.drop_subset _ _ (List.take_subset _ _ hd1)
    simp only [List.mem_map] at hd2
    obtain ⟨d2, hd2, rfl⟩ := hd2
    unfold findDocs at hd2
    rw [List.mem_filter] at hd2
    have hc := condMatches_of_docMatches hd2.2
      (show ("$or", QVal.orDeletedAtNull) ∈ MemberModel.base_query false by
        simp [MemberModel.base_query])
    rw [notSoftDeletedAt_memberConvert, notSoftDeletedAt_proj]
    exact hc
  · intro c skip limit st hst
    rw [List.all_eq_true]
    intro d hd
    unfold LifegroupModel.get_lifegroup_list at hd
    simp only [hst, Bool.false_eq_true, if_false, List.mem_map] at hd
    obtain ⟨d1, hd1, rfl⟩ := hd
    have hd2 := List.drop_subset _ _ (List.take_subset _ _ hd1)
    unfold findDocs at hd2
    rw [List.mem_filter] at hd2
    have hc := condMatches_of_docMatches hd2.2
      (show ("$or", QVal.orDeletedAtNull) ∈ LifegroupModel.base_query false by
        simp [LifegroupModel.base_query])
    rw [notSoftDeletedAt_lifegroupConvert]
    exact hc
  · intro c skip limit st
    rw [List.all_eq_true]
    intro d hd
    unfold TribeModel.get_tribe_list at hd
    cases hst : strTruthy st with
    | false =>
        simp only [hst, Bool.false_eq_true, if_false, List.mem_map] at hd
        obtain ⟨d1, hd1, rfl⟩ := hd
        have hd2 := List.drop_subset _ _ (List.take_subset _ _ hd1)
        unfold findDocs at hd2
        rw [List.mem_filter] at hd2
        have hc := condMatches_of_docMatches hd2.2
          (show ("deleted", QVal.neTrue) ∈ TribeModel.base_query false by
            simp [TribeModel.base_query])
        rw [notDeletedFlag_tribeConvert]
        exact hc
    | true =>
        simp only [hst, if_true, List.mem_map] at hd
        obtain ⟨d1, hd1, rfl⟩ := hd
        have hd2 := List.drop_subset _ _ (List.take_subset _ _ hd1)
        unfold findDocs at hd2
        rw [List.mem_filter] at hd2
        have hmem : ("deleted", QVal.neTrue) ∈
            dictSet (TribeModel.base_query false) "$or"
              (QVal.orSearch ["name", "description"] (st.getD "")) := by
          refine mem_dictSet_of_key_ne ?_ _ _ (by decide)
          simp [TribeModel.base_query]
        have hc := condMatches_of_docMatches hd2.2 hmem
        rw [notDeletedFlag_tribeConvert]
        exact hc

/-- Witness for C6 (amended) at concrete collections and arguments. -/
theorem list_soft_delete_filter_amended_witness :
    (MemberModel.get_member_list
        [[("_id", BVal.oid 2), ("first_name", BVal.str "John"),
          ("deleted_at", BVal.dt 5)]] 0 10 none false).1.all
        notSoftDeletedAt = true ∧
    (LifegroupModel.get_lifegroup_list
        [[("_id", BVal.oid 7), ("name", BVal.str "Alpha"),
          ("deleted_at", BVal.dt 5)]] 0 10 (some "") false).1.all
        notSoftDeletedAt = true ∧
    (TribeModel.get_tribe_list
        [[("_id", BVal.oid 3), ("name", BVal.str "Tribe"),
          ("deleted", BVal.bool true)]] 0 10 (some "tri") false).1.all
        notDeletedFlag = true :=
  ⟨list_soft_delete_filter_amended.1 _ 0 10 none rfl,
   list_soft_delete_filter_amended.2.1 _ 0 10 (some "") rfl,
   list_soft_delete_filter_amended.2.2 _ 0 10 (some "tri")⟩

/-- Counterexample to C6 as stated: a truthy search term replaces the
soft-delete filter of `get_member_list` (both live under `"$or"`), so a
soft-deleted member matching the search is returned. -/
theorem member_list_search_returns_soft_deleted_counterexample :
    (MemberModel.get_member_list
        [[("_id", BVal.oid 2), ("first_name", BVal.str "John"),
          ("last_name", BVal.str "Doe"), ("deleted_at", BVal.dt 5)]]
        0 10 (some "jo") false).1 =
      [[("_id", BVal.str "2"), ("first_name", BVal.str "John"),
        ("last_name", BVal.str "Doe"), ("deleted_at", BVal.dt 5)]] ∧
    notSoftDeletedAt
      [("_id", BVal.str "2"), ("first_name", BVal.str "John"),
       ("last_name", BVal.str "Doe"), ("deleted_at", BVal.dt 5)] = false :=
  ⟨rfl, rfl⟩

/-- The HTTP status of a handler outcome, when one was produced. -/
def ctrlStatus (r : CtrlOut) : Option Nat :=
  match r with
  | .resp st _ => some st
  | .uncaught _ => none

/-- A database with one stored user (hash of "secret"). -/
def demoDb : DB :=
  { users := [demoUserRow], tribes := [], members := [],
    lifregroups := [] }

/-- C7 (amended): when the email matches an existing user and the
password fails verification, `login` raises `HTTPException(401)`
internally, but its `except HTTPException` block returns the response
with status 400 (carrying the 401 detail), not 401. -/
theorem login_bad_password_amended (db : DB) (email password : String)
    (now : Nat) (u : Doc) (h : String)
    (hfound : UserModel.get_by_email db.users email = some u)
    (hne : u.isEmpty = false)
    (hpw : dictGet u "password" = some (.str h))
    (hbad : AuthService.verify_password password h = false) :
    AuthController.login db email password now =
      .resp 400 [("error", .str "Invalid credentials")] := by
  unfold AuthController.login
  rw [hfound]
  simp [docTruthy, hne, hpw, hbad, AuthController.catchToBadRequest]

/-- Witness for C7 (amended) at a concrete store and password. -/
theorem login_bad_password_amended_witness :
    AuthController.login demoDb "a@x.com" "wrong" 0 =
      .resp 400 [("error", .str "Invalid credentials")] :=
  login_bad_password_amended demoDb "a@x.com" "wrong" 0
    [("_id", .str "9"), ("email", .str "a@x.com"),
     ("password", .str "bcrypt$secret"), ("updated_at", .dt 1)]
    "bcrypt$secret" rfl rfl rfl rfl

/-- Counterexample to C7 as stated: the bad-credentials login response
has status 400, not 401. -/
theorem login_bad_password_401_counterexample :
    ctrlStatus (AuthController.login demoDb "a@x.com" "wrong" 0) =
      some 400 ∧
    ctrlStatus (AuthController.login demoDb "a@x.com" "wrong" 0) ≠
      some 401 :=
  ⟨rfl, by decide⟩

/-- A lifegroup with an empty members list, the target of a member
create carrying `lifegroup_id = "7"`. -/
def c2Lifegroup : Doc :=
  [("_id", .oid 7), ("name", .str "Alpha"), ("description", .str "lg"),
   ("tribe_id", .oid 3), ("leader_id", .oid 4), ("members", .arr []),
   ("created_at", .dt 0), ("updated_at", .dt 0)]

/-- Database holding only that lifegroup. -/
def c2Db : DB :=
  { users := [], tribes := [], members := [], lifregroups := [c2Lifegroup] }

/-- A member-create request assigned to the existing lifegroup 7. -/
def c2Payload : MemberController.CreateMemberRequestData :=
  { first_name := "John", middle_name := none, last_name := "Doe",
    address := "12 Main", birthday := 0, tribe_id := "3",
    lifegroup_id := some "7" }

/-- C2 at its failing input: creating a member assigned to an existing
lifegroup inserts the member row and then calls `LifegroupModel.update`
with a plain dict, whose `model_dump` attribute lookup raises
`AttributeError`; the exception escapes `except HTTPException`, and the
lifegroup's members list never receives the new member's id. -/
theorem member_store_lifegroup_append_crashes :
    MemberController.store c2Db c2Payload 10 42 =
      (.uncaught (.attributeError "dict object has no attribute model_dump"),
       { c2Db with
          members :=
            [[("first_name", .str "John"), ("middle_name", .null),
              ("last_name", .str "Doe"), ("address", .str "12 Main"),
              ("birthday", .dt 0), ("tribe_id", .oid 3),
              ("life_group_id", .null), ("created_at", .dt 10),
              ("updated_at", .dt 10), ("_id", .oid 42)]] }) ∧
    ((MemberController.store c2Db c2Payload 10 42).2.lifregroups.map
        MemberController.membersField) = [[]] :=
  ⟨rfl, rfl⟩

/-- A member row assigned (per lifegroup A's members list) to A. -/
def c3Member : Doc :=
  [("_id", .oid 5), ("first_name", .str "Jane"), ("last_name", .str "Roe"),
   ("address", .str "1 Elm"), ("updated_at", .dt 0)]

/-- Lifegroup A, whose members list holds member 5. -/
def c3LifegroupA : Doc :=
  [("_id", .oid 7), ("name", .str "Alpha"), ("members", .arr [.oid 5]),
   ("updated_at", .dt 0)]

/-- Lifegroup B, the move target, with an empty members list. -/
def c3LifegroupB : Doc :=
  [("_id", .oid 8), ("name", .str "Beta"), ("members", .arr []),
   ("updated_at", .dt 0)]

/-- Database for the A-to-B move. -/
def c3Db : DB :=
  { users := [], tribes := [], members := [c3Member],
    lifregroups := [c3LifegroupA, c3LifegroupB] }

/-- A member-update request moving the member to lifegroup B. -/
def c3Payload : MemberController.UpdateMemberRequestData :=
  { lifegroup_id := some "8" }

/-- C3 at its failing input: updating member 5 (in lifegroup A) with a
new assignment to lifegroup B updates the member row, then calls
`LifegroupModel.update` with a plain dict to remove the id from A; the
`model_dump` attribute lookup raises `AttributeError`, the exception
escapes, A's members list still contains the id, and B's never gains
it. -/
theorem member_update_move_lifegroup_crashes :
    MemberController.update c3Db "5" c3Payload 20 =
      (.uncaught (.attributeError "dict object has no attribute model_dump"),
       { c3Db with
          members :=
            [[("_id", .oid 5), ("first_name", .str "Jane"),
              ("last_name", .str "Roe"), ("address", .str "1 Elm"),
              ("updated_at", .dt 20)]] }) ∧
    ((MemberController.update c3Db "5" c3Payload 20).2.lifregroups.map
        MemberController.membersField) = [[.oid 5], []] :=
  ⟨rfl, rfl⟩

/-- Database for the delete: member 5 listed in lifegroup A. -/
def c4Db : DB :=
  { users := [], tribes := [], members := [c3Member],
    lifregroups := [c3LifegroupA] }

/-- C4 at its failing input: deleting member 5, whose id appears in
lifegroup A's members list, calls `LifegroupModel.update` with a plain
dict to remove the id; the `model_dump` attribute lookup raises
`AttributeError`, the exception escapes before the member row is
soft-deleted, and A's members list still contains the id. -/
theorem member_delete_lifegroup_removal_crashes :
    MemberController.delete c4Db "5" 30 =
      (.uncaught (.attributeError "dict object has no attribute model_dump"),
       c4Db) ∧
    ((MemberController.delete c4Db "5" 30).2.lifregroups.map
        MemberController.membersField) = [[.oid 5]] :=
  ⟨rfl, rfl⟩
